import Mathlib

/-!
Verification of the metadata-driven tiled-imagery bootstrap layer:
the Bing Maps imagery provider (quadkey tile addressing, metadata cache,
per-tile attribution) and the ArcGIS MapServer imagery provider
(capability-document parsing, builder commit, tile/export request
construction, feature picking).

Each source function is embedded shallowly; geometry supplied by
collaborator modules that are not part of the analysed sources
(tiling schemes, projections, rectangle intersection) is modelled from
the specification and marked as such.
-/

namespace Bing

/-- One digit of a Bing quadkey: bit 0 is set when bit `i` of `x` is set,
bit 1 when bit `i` of `y` is set (from `BingMapsImageryProvider.tileXYToQuadKey`,
loop body). -/
def quadKeyDigit (x y i : Nat) : Nat :=
  (if x.testBit i then 1 else 0) ||| (if y.testBit i then 2 else 0)

/-- Digit sequence of `tileXYToQuadKey`: one digit per bit position from
`level` down to `0`, most significant first. -/
def tileXYToQuadKeyDigits (x y : Nat) : Nat → List Nat
  | 0 => [quadKeyDigit x y 0]
  | i + 1 => quadKeyDigit x y (i + 1) :: tileXYToQuadKeyDigits x y i

/-- Rendering of one quadkey digit as the character the JS string
concatenation produces. -/
def digitToChar (d : Nat) : Char := Char.ofNat (48 + d)

/-- Numeric value of one quadkey character (the JS unary `+` coercion). -/
def charToDigit (c : Char) : Nat := c.toNat - 48

/-- `BingMapsImageryProvider.tileXYToQuadKey`: emits, for each bit position
from `level` down to `0`, the digit combining the x bit (value 1) and the
y bit (value 2). -/
def tileXYToQuadKey (x y level : Nat) : String :=
  String.mk ((tileXYToQuadKeyDigits x y level).map digitToChar)

/-- Decoding loop of `BingMapsImageryProvider.quadKeyToTileXY`: the head
digit carries bit position `i`, the rest carry the lower positions. -/
def quadKeyToTileXYDigits : List Nat → Nat → Nat × Nat
  | [], _ => (0, 0)
  | d :: rest, i =>
    let p := quadKeyToTileXYDigits rest (i - 1)
    ((if d &&& 1 ≠ 0 then 2 ^ i ||| p.1 else p.1),
     (if d &&& 2 ≠ 0 then 2 ^ i ||| p.2 else p.2))

/-- `BingMapsImageryProvider.quadKeyToTileXY`: recovers `(x, y, level)`
from a quadkey; `level` is the key length minus one. -/
def quadKeyToTileXY (quadkey : String) : Nat × Nat × Nat :=
  let digits := quadkey.data.map charToDigit
  let level := digits.length - 1
  let p := quadKeyToTileXYDigits digits level
  (p.1, p.2, level)

theorem tileXYToQuadKeyDigits_length (x y level : Nat) :
    (tileXYToQuadKeyDigits x y level).length = level + 1 := by
  induction level with
  | zero => rfl
  | succ i ih => simp [tileXYToQuadKeyDigits, ih]

theorem quadKeyDigit_le (x y i : Nat) : quadKeyDigit x y i ≤ 3 := by
  unfold quadKeyDigit
  cases x.testBit i <;> cases y.testBit i <;> decide

theorem tileXYToQuadKeyDigits_le (x y level : Nat) :
    ∀ d ∈ tileXYToQuadKeyDigits x y level, d ≤ 3 := by
  induction level with
  | zero =>
    intro d hd
    simp [tileXYToQuadKeyDigits] at hd
    exact hd ▸ quadKeyDigit_le x y 0
  | succ i ih =>
    intro d hd
    simp [tileXYToQuadKeyDigits] at hd
    rcases hd with h | h
    · exact h ▸ quadKeyDigit_le x y (i + 1)
    · exact ih d h

theorem charToDigit_digitToChar {d : Nat} (hd : d ≤ 3) :
    charToDigit (digitToChar d) = d := by
  interval_cases d <;> decide

/-- Key arithmetic step for the decode loop: prepending the digit for bit
position `level + 1` extends the recovered value from `x % 2 ^ (level + 1)`
to `x % 2 ^ (level + 2)`. -/
theorem or_two_pow_mod (x level : Nat) :
    (if x.testBit (level + 1) then 2 ^ (level + 1) ||| x % 2 ^ (level + 1)
     else x % 2 ^ (level + 1)) = x % 2 ^ (level + 2) := by
  have hmod : x % 2 ^ (level + 2) =
      x % 2 ^ (level + 1) + 2 ^ (level + 1) * (x / 2 ^ (level + 1) % 2) := by
    have h2 : (2 : Nat) ^ (level + 2) = 2 ^ (level + 1) * 2 := by ring
    rw [h2, Nat.mod_mul]
  have hbit : x.testBit (level + 1) = decide (x / 2 ^ (level + 1) % 2 = 1) :=
    Nat.testBit_to_div_mod
  have hlt : x % 2 ^ (level + 1) < 2 ^ (level + 1) :=
    Nat.mod_lt _ (Nat.pos_pow_of_pos _ (by omega))
  have hor : 2 ^ (level + 1) ||| x % 2 ^ (level + 1) =
      2 ^ (level + 1) + x % 2 ^ (level + 1) := by
    have := Nat.mul_add_lt_is_or hlt 1
    simpa [Nat.mul_one] using this.symm
  cases hb : x.testBit (level + 1) with
  | true =>
    have h1 : x / 2 ^ (level + 1) % 2 = 1 := by
      rw [hb] at hbit
      simpa using hbit.symm
    rw [if_pos rfl, hor, hmod, h1]
    omega
  | false =>
    have h0 : x / 2 ^ (level + 1) % 2 = 0 := by
      rw [hb] at hbit
      have hne : ¬ (x / 2 ^ (level + 1) % 2 = 1) := by simpa using hbit.symm
      omega
    rw [if_neg (by simp), hmod, h0]
    omega

theorem decode_encode_digits (x y : Nat) : ∀ level,
    quadKeyToTileXYDigits (tileXYToQuadKeyDigits x y level) level =
      (x % 2 ^ (level + 1), y % 2 ^ (level + 1)) := by
  intro level
  induction level with
  | zero =>
    have hx2 : x % 2 = if x.testBit 0 then 1 else 0 := by
      cases hb : x.testBit 0 with
      | true => simpa using Nat.mod_two_eq_one_iff_testBit_zero.mpr hb
      | false => simpa using Nat.mod_two_eq_zero_iff_testBit_zero.mpr hb
    have hy2 : y % 2 = if y.testBit 0 then 1 else 0 := by
      cases hb : y.testBit 0 with
      | true => simpa using Nat.mod_two_eq_one_iff_testBit_zero.mpr hb
      | false => simpa using Nat.mod_two_eq_zero_iff_testBit_zero.mpr hb
    cases hbx : x.testBit 0 <;> cases hby : y.testBit 0 <;>
      simp [tileXYToQuadKeyDigits, quadKeyToTileXYDigits, quadKeyDigit,
        hx2, hy2, hbx, hby]
  | succ level ih =>
    have hstep : quadKeyToTileXYDigits
        (quadKeyDigit x y (level + 1) :: tileXYToQuadKeyDigits x y level)
        (level + 1) =
        ((if quadKeyDigit x y (level + 1) &&& 1 ≠ 0 then
            2 ^ (level + 1) ||| x % 2 ^ (level + 1) else x % 2 ^ (level + 1)),
         (if quadKeyDigit x y (level + 1) &&& 2 ≠ 0 then
            2 ^ (level + 1) ||| y % 2 ^ (level + 1) else y % 2 ^ (level + 1))) := by
      simp only [quadKeyToTileXYDigits, Nat.add_sub_cancel, ih]
    have hd1 : (quadKeyDigit x y (level + 1) &&& 1 ≠ 0) ↔
        x.testBit (level + 1) = true := by
      unfold quadKeyDigit
      cases x.testBit (level + 1) <;> cases y.testBit (level + 1) <;> simp
    have hd2 : (quadKeyDigit x y (level + 1) &&& 2 ≠ 0) ↔
        y.testBit (level + 1) = true := by
      unfold quadKeyDigit
      cases x.testBit (level + 1) <;> cases y.testBit (level + 1) <;> simp
    show quadKeyToTileXYDigits
        (quadKeyDigit x y (level + 1) :: tileXYToQuadKeyDigits x y level)
        (level + 1) = _
    rw [hstep, if_congr hd1 rfl rfl, if_congr hd2 rfl rfl,
      or_two_pow_mod x level, or_two_pow_mod y level]

/-- Claim C1: for every `level ≤ 23` and tile coordinate `x, y < 2 ^ level`,
decoding the quadkey produced by `tileXYToQuadKey` recovers `(x, y, level)`;
in particular `tileXYToQuadKey 3 5 3 = "0213"` and
`quadKeyToTileXY "0213" = (3, 5, 3)`. -/
theorem quadkey_roundtrip (x y level : Nat) (hlevel : level ≤ 23)
    (hx : x < 2 ^ level) (hy : y < 2 ^ level) :
    quadKeyToTileXY (tileXYToQuadKey x y level) = (x, y, level) ∧
    tileXYToQuadKey 3 5 3 = "0213" ∧
    quadKeyToTileXY "0213" = (3, 5, 3) := by
  refine ⟨?_, by decide, by decide⟩
  unfold quadKeyToTileXY tileXYToQuadKey
  have hdigits : (String.mk ((tileXYToQuadKeyDigits x y level).map digitToChar)).data.map
      charToDigit = tileXYToQuadKeyDigits x y level := by
    show ((tileXYToQuadKeyDigits x y level).map digitToChar).map charToDigit = _
    rw [List.map_map]
    have : ∀ d ∈ tileXYToQuadKeyDigits x y level, (charToDigit ∘ digitToChar) d = id d := by
      intro d hd
      exact charToDigit_digitToChar (tileXYToQuadKeyDigits_le x y level d hd)
    rw [List.map_congr_left this, List.map_id]
  simp only [hdigits, tileXYToQuadKeyDigits_length, Nat.add_sub_cancel]
  rw [decode_encode_digits]
  have hx1 : x % 2 ^ (level + 1) = x :=
    Nat.mod_eq_of_lt (lt_of_lt_of_le hx (Nat.pow_le_pow_right (by omega) (by omega)))
  have hy1 : y % 2 ^ (level + 1) = y :=
    Nat.mod_eq_of_lt (lt_of_lt_of_le hy (Nat.pow_le_pow_right (by omega) (by omega)))
  rw [hx1, hy1]

/-- Witness for claim C1 at the concrete tile `(3, 5, 3)`. -/
theorem quadkey_roundtrip_witness :
    quadKeyToTileXY (tileXYToQuadKey 3 5 3) = (3, 5, 3) ∧
    tileXYToQuadKey 3 5 3 = "0213" ∧
    quadKeyToTileXY "0213" = (3, 5, 3) :=
  quadkey_roundtrip 3 5 3 (by decide) (by decide) (by decide)

/-- A geographic rectangle (west, south, east, north), in radians. -/
structure Rectangle where
  west : ℚ
  south : ℚ
  east : ℚ
  north : ℚ
deriving DecidableEq

/-- Modelled from the spec: `Rectangle.intersection` from the engine's
Rectangle module, which is not among the analysed sources; the spec asks
for a "non-empty intersection test on geographic rectangles". The
intersection is defined exactly when both the shared longitude span and the
shared latitude span are non-empty. -/
def Rectangle.intersection (r1 r2 : Rectangle) : Option Rectangle :=
  let west := max r1.west r2.west
  let east := min r1.east r2.east
  if east ≤ west then none
  else
    let south := max r1.south r2.south
    let north := min r1.north r2.north
    if north ≤ south then none
    else some ⟨west, south, east, north⟩

/-- A coverage area of one Bing attribution entry: an inclusive 1-based
zoom range and a bounding rectangle. -/
structure CoverageArea where
  zoomMin : Nat
  zoomMax : Nat
  bbox : Rectangle

/-- One entry of the Bing attribution list: a credit and its coverage
areas. -/
structure AttributionEntry where
  credit : String
  coverageAreas : List CoverageArea

/-- Inner-loop test of `getRectangleAttribution`: one coverage area
qualifies when the (already normalized) level lies in its zoom range and
its bounding rectangle intersects the query rectangle. -/
def areaIncludes (level : Nat) (rectangle : Rectangle) (area : CoverageArea) : Bool :=
  decide (area.zoomMin ≤ level) && decide (level ≤ area.zoomMax) &&
    (Rectangle.intersection rectangle area.bbox).isSome

/-- `getRectangleAttribution`: normalizes the level to the external 1-based
convention and keeps, in order, the credit of every attribution entry at
least one of whose coverage areas qualifies. -/
def getRectangleAttribution (attributionList : List AttributionEntry)
    (level : Nat) (rectangle : Rectangle) : List String :=
  (attributionList.filter
      (fun attribution => attribution.coverageAreas.any
        (areaIncludes (level + 1) rectangle))).map
    (fun attribution => attribution.credit)

/-- Claim C3: a credit is returned exactly when at least one of its entry's
coverage areas has `zoomMin ≤ level + 1 ≤ zoomMax` and a non-empty
intersection with the query rectangle; the result preserves the
attribution-list order (it is a sublist of the credits in list order) and,
since every entry carries its own credit object, has no duplicates. -/
theorem getRectangleAttribution_spec (attributionList : List AttributionEntry)
    (level : Nat) (rectangle : Rectangle)
    (hnodup : (attributionList.map (fun a => a.credit)).Nodup) :
    (∀ c, c ∈ getRectangleAttribution attributionList level rectangle ↔
      ∃ a, a ∈ attributionList ∧ a.credit = c ∧
        ∃ area, area ∈ a.coverageAreas ∧
          area.zoomMin ≤ level + 1 ∧ level + 1 ≤ area.zoomMax ∧
          (Rectangle.intersection rectangle area.bbox).isSome = true) ∧
    (getRectangleAttribution attributionList level rectangle).Sublist
      (attributionList.map (fun a => a.credit)) ∧
    (getRectangleAttribution attributionList level rectangle).Nodup := by
  have hsub : (getRectangleAttribution attributionList level rectangle).Sublist
      (attributionList.map (fun a => a.credit)) := by
    unfold getRectangleAttribution
    exact (List.filter_sublist attributionList).map (fun a => a.credit)
  refine ⟨?_, hsub, hnodup.sublist hsub⟩
  intro c
  simp only [getRectangleAttribution, List.mem_map, List.mem_filter,
    List.any_eq_true, areaIncludes, Bool.and_eq_true, decide_eq_true_eq]
  constructor
  · rintro ⟨a, ⟨ha, area, harea, ⟨h1, h2⟩, h3⟩, hc⟩
    exact ⟨a, ha, hc, area, harea, h1, h2, h3⟩
  · rintro ⟨a, ha, hc, area, harea, h1, h2, h3⟩
    exact ⟨a, ⟨ha, area, harea, ⟨h1, h2⟩, h3⟩, hc⟩

/-- A one-entry attribution list whose only coverage area covers levels 1-5
and a band around the equator; used to witness claim C3. -/
def sampleAttributionList : List AttributionEntry :=
  [⟨"a", [⟨1, 5, ⟨-3, -1, 3, 1⟩⟩]⟩]

/-- The unit query rectangle used to witness claim C3. -/
def sampleRectangle : Rectangle := ⟨0, 0, 1, 1⟩

/-- Witness for claim C3 at a concrete attribution list, level and query
rectangle. -/
theorem getRectangleAttribution_spec_witness :
    (sampleAttributionList.map (fun a => a.credit)).Nodup ∧
    ((∀ c, c ∈ getRectangleAttribution sampleAttributionList 2 sampleRectangle ↔
      ∃ a, a ∈ sampleAttributionList ∧ a.credit = c ∧
        ∃ area, area ∈ a.coverageAreas ∧
          area.zoomMin ≤ 2 + 1 ∧ 2 + 1 ≤ area.zoomMax ∧
          (Rectangle.intersection sampleRectangle area.bbox).isSome = true) ∧
    (getRectangleAttribution sampleAttributionList 2 sampleRectangle).Sublist
      (sampleAttributionList.map (fun a => a.credit)) ∧
    (getRectangleAttribution sampleAttributionList 2 sampleRectangle).Nodup) :=
  ⟨by decide, getRectangleAttribution_spec sampleAttributionList 2
    sampleRectangle (by decide)⟩

/-- State of the process-wide Bing metadata cache
(`BingMapsImageryProvider._metadataCache`, keyed by the metadata resource
URL) together with the log of `fetchJsonp` network fetches issued so far. -/
structure MetadataFetchState where
  cache : List String
  fetches : List String
deriving DecidableEq

/-- `requestMetadata` (Bing variant): looks the metadata URL up in the
process-wide cache and only on a miss issues a network fetch, storing the
promise under the key. -/
def requestMetadata (st : MetadataFetchState) (url : String) : MetadataFetchState :=
  if url ∈ st.cache then st
  else { cache := url :: st.cache, fetches := st.fetches ++ [url] }

theorem requestMetadata_idem (st : MetadataFetchState) (url : String) :
    requestMetadata (requestMetadata st url) url = requestMetadata st url := by
  unfold requestMetadata
  by_cases h : url ∈ st.cache
  · simp [h]
  · simp [h]

end Bing

namespace ArcGis

/-- The two projections the provider supports. -/
inductive Projection
  | geographic
  | webMercator
deriving DecidableEq

/-- The two tiling schemes the metadata parser can select. -/
inductive TilingScheme
  | geographic
  | webMercator
deriving DecidableEq

/-- The projection carried by each tiling scheme (the JS code checks
`tilingScheme.projection instanceof GeographicProjection`). -/
def TilingScheme.projection : TilingScheme → Projection
  | .geographic => .geographic
  | .webMercator => .webMercator

/-- A geographic or native rectangle (west, south, east, north). -/
structure Rectangle where
  west : ℝ
  south : ℝ
  east : ℝ
  north : ℝ

/-- Modelled from the spec: the WGS84 ellipsoid's maximum radius in metres
(the Ellipsoid module is not among the analysed sources), used by the
web-mercator projection and by the extent clamping in `metadataSuccess`. -/
noncomputable def earthMaximumRadius : ℝ := 6378137

/-- Modelled from the spec: `WebMercatorProjection.unproject` (the
projection module is not among the analysed sources); converts native
web-mercator metres to geographic longitude/latitude radians. -/
noncomputable def webMercatorUnproject (x y : ℝ) : ℝ × ℝ :=
  (x / earthMaximumRadius,
   Real.pi / 2 - 2 * Real.arctan (Real.exp (-(y / earthMaximumRadius))))

/-- Modelled from the spec: `WebMercatorProjection.project`; converts
geographic longitude/latitude radians to native web-mercator metres. -/
noncomputable def webMercatorProject (longitude latitude : ℝ) : ℝ × ℝ :=
  (earthMaximumRadius * longitude,
   earthMaximumRadius * Real.log (Real.tan (Real.pi / 4 + latitude / 2)))

/-- Modelled from the spec: `CesiumMath.toDegrees`. -/
noncomputable def toDegrees (radians : ℝ) : ℝ := radians * 180 / Real.pi

/-- Modelled from the spec: `CesiumMath.toRadians`. -/
noncomputable def toRadians (degrees : ℝ) : ℝ := degrees * Real.pi / 180

/-- Modelled from the spec: `Rectangle.fromDegrees`. -/
noncomputable def Rectangle.fromDegrees (west south east north : ℝ) : Rectangle :=
  ⟨toRadians west, toRadians south, toRadians east, toRadians north⟩

/-- Modelled from the spec: the full (geographic, radians) rectangle of
each tiling scheme (the tiling-scheme modules are not among the analysed
sources). The web-mercator rectangle is the unprojection of the full
square native extent of half-width pi times the ellipsoid radius, so its
latitude bound is `pi / 2 - 2 * arctan (exp (-pi))`. -/
noncomputable def TilingScheme.rectangle : TilingScheme → Rectangle
  | .geographic => ⟨-Real.pi, -(Real.pi / 2), Real.pi, Real.pi / 2⟩
  | .webMercator =>
      ⟨-Real.pi, -(Real.pi / 2 - 2 * Real.arctan (Real.exp (-Real.pi))),
        Real.pi, Real.pi / 2 - 2 * Real.arctan (Real.exp (-Real.pi))⟩

/-- Modelled from the spec: `tileXYToNativeRectangle` of the two tiling
schemes. The geographic scheme splits level zero into 2 x 1 tiles and its
native rectangle is in degrees; the web-mercator scheme splits level zero
into 1 x 1 tiles and its native rectangle is in metres. Tile (0, 0) is the
top-left corner. -/
noncomputable def TilingScheme.tileXYToNativeRectangle :
    TilingScheme → Nat → Nat → Nat → Rectangle
  | .geographic, x, y, level =>
      let xTiles : ℝ := 2 * 2 ^ level
      let yTiles : ℝ := 2 ^ level
      let xTileWidth : ℝ := 360 / xTiles
      let yTileHeight : ℝ := 180 / yTiles
      ⟨x * xTileWidth - 180, 90 - (y + 1) * yTileHeight,
        (x + 1) * xTileWidth - 180, 90 - y * yTileHeight⟩
  | .webMercator, x, y, level =>
      let tiles : ℝ := 2 ^ level
      let tileSize : ℝ := 2 * Real.pi * earthMaximumRadius / tiles
      ⟨x * tileSize - Real.pi * earthMaximumRadius,
        Real.pi * earthMaximumRadius - (y + 1) * tileSize,
        (x + 1) * tileSize - Real.pi * earthMaximumRadius,
        Real.pi * earthMaximumRadius - y * tileSize⟩

/-- Query parameters of a dynamic `export` request
(from `buildImageResource`, non-tiled branch). -/
structure ExportQuery where
  bbox : Rectangle
  size : String
  format : String
  transparent : Bool
  f : String
  bboxSR : Nat
  imageSR : Nat
  layers : Option String

/-- The request descriptor `buildImageResource` produces: either the
pre-cached tile path `tile/{level}/{y}/{x}` or a dynamic export query. -/
inductive ImageResource
  | tile (level : Nat) (y : Nat) (x : Nat)
  | dynamicExport (query : ExportQuery)

/-- A tile discard policy: either one supplied by the caller (opaque to
this core) or the default `DiscardMissingTileImagePolicy` with its
missing-tile probe resource, sentinel pixel offsets and transparency
escape hatch. -/
inductive TileDiscardPolicy
  | supplied (id : Nat)
  | discardMissingTileImage (missingImageResource : ImageResource)
      (pixelsToCheck : List (Nat × Nat))
      (disableCheckIfAllPixelsAreTransparent : Bool)

/-- The committed (post-`build`) provider configuration. -/
structure Provider where
  useTiles : Bool
  tilingScheme : TilingScheme
  rectangle : Rectangle
  credit : Option String
  tileDiscardPolicy : Option TileDiscardPolicy
  tileWidth : Nat
  tileHeight : Nat
  maximumLevel : Option Nat
  layers : Option String
  enablePickFeatures : Bool

/-- The staging record populated by the constructor defaults and the
metadata resolver (`ImageryProviderBuilder`). -/
structure ImageryProviderBuilder where
  useTiles : Bool
  tilingScheme : TilingScheme
  rectangle : Rectangle
  credit : Option String
  tileDiscardPolicy : Option TileDiscardPolicy
  tileWidth : Nat
  tileHeight : Nat
  maximumLevel : Option Nat

/-- JavaScript truthiness of the optional comma-separated layer list in the
export query: both `undefined` and the empty string are falsy, so only a
non-empty filter contributes a `show:` parameter. -/
def layersShowParameter (layers : Option String) : Option String :=
  match layers with
  | some l => if l = "" then none else some ("show:" ++ l)
  | none => none

/-- `buildImageResource`: the pre-cached branch requests
`tile/{level}/{y}/{x}`; the dynamic branch requests an `export` with the
tile's native rectangle as bounding box, the configured output size,
png32 format, transparency, the spatial-reference code of the active
projection, and an optional `show:` layer parameter. -/
noncomputable def buildImageResource (p : Provider) (x y level : Nat) : ImageResource :=
  if p.useTiles then
    .tile level y x
  else
    let nativeRectangle := p.tilingScheme.tileXYToNativeRectangle x y level
    .dynamicExport
      { bbox := nativeRectangle,
        size := toString p.tileWidth ++ "," ++ toString p.tileHeight,
        format := "png32",
        transparent := true,
        f := "image",
        bboxSR := if p.tilingScheme.projection = .geographic then 4326 else 3857,
        imageSR := if p.tilingScheme.projection = .geographic then 4326 else 3857,
        layers := layersShowParameter p.layers }

/-- `ImageryProviderBuilder.prototype.build`: writes every builder field
onto the provider, then, only when pre-cached tiles are used and no discard
policy was supplied, installs the default `DiscardMissingTileImagePolicy`
probing tile (0, 0) at the maximum level at five fixed pixel offsets. The
JS passes `this.maximumLevel` to `buildImageResource` directly; the
embedding unwraps the option (the claims are stated for builders whose
maximum level is defined, which is the case on every path that sets
`useTiles`). -/
noncomputable def ImageryProviderBuilder.build (b : ImageryProviderBuilder)
    (provider : Provider) : Provider :=
  let provider := { provider with
    useTiles := b.useTiles, tilingScheme := b.tilingScheme,
    rectangle := b.rectangle, credit := b.credit,
    tileDiscardPolicy := b.tileDiscardPolicy,
    tileWidth := b.tileWidth, tileHeight := b.tileHeight,
    maximumLevel := b.maximumLevel }
  if b.useTiles && b.tileDiscardPolicy.isNone then
    { provider with tileDiscardPolicy := some (.discardMissingTileImage
        (buildImageResource provider 0 0 (b.maximumLevel.getD 0))
        [(0, 0), (200, 20), (20, 200), (80, 110), (160, 130)]
        true) }
  else
    provider

/-- One level-of-detail entry of a capability document's tile grid. -/
structure Lod where
  level : Int

/-- A spatial-reference record whose `wkid` field may be absent
(the parser checks `defined(fullExtent.spatialReference.wkid)`). -/
structure SpatialReferenceRec where
  wkid : Option Int

/-- The tile-grid section of a capability document. `rows` and `cols` are
the per-tile pixel dimensions; the tile spatial reference's `wkid` is read
without a defined-check by the parser. -/
structure TileInfo where
  rows : Nat
  cols : Nat
  spatialReferenceWkid : Int
  lods : List Lod

/-- The data-extent section of a capability document. -/
structure FullExtent where
  xmin : ℝ
  ymin : ℝ
  xmax : ℝ
  ymax : ℝ
  spatialReference : Option SpatialReferenceRec

/-- A parsed capability document (`data` in `metadataSuccess`). -/
structure CapabilityDocument where
  tileInfo : Option TileInfo
  fullExtent : Option FullExtent
  copyrightText : Option String

/-- The two fatal parse failures `metadataSuccess` can raise. -/
inductive MetadataError
  | unsupportedTileSpatialReference (wkid : Int)
  | unsupportedExtentSpatialReference (wkid : Int)
deriving DecidableEq

/-- Tiling-scheme selection for the tile-grid spatial reference: 102100 and
102113 select web-mercator, 4326 selects geographic, anything else is a
fatal unsupported-spatial-reference error. -/
def tilingSchemeForWkid (wkid : Int) : Except MetadataError TilingScheme :=
  if wkid = 102100 ∨ wkid = 102113 then .ok .webMercator
  else if wkid = 4326 then .ok .geographic
  else .error (.unsupportedTileSpatialReference wkid)

/-- Reprojection of a web-mercator data extent to geographic radians: the
native extent is clamped to the square of half-width pi times the
ellipsoid radius, then unprojected corner-wise (from `metadataSuccess`). -/
noncomputable def webMercatorExtentRectangle (extent : FullExtent) : Rectangle :=
  let sw := webMercatorUnproject
    (max extent.xmin (-(earthMaximumRadius * Real.pi)))
    (max extent.ymin (-(earthMaximumRadius * Real.pi)))
  let ne := webMercatorUnproject
    (min extent.xmax (earthMaximumRadius * Real.pi))
    (min extent.ymax (earthMaximumRadius * Real.pi))
  ⟨sw.1, sw.2, ne.1, ne.2⟩

/-- The rectangle contributed by a data extent: `some` when the extent
carries a defined spatial reference (reprojected as that reference
dictates, or a fatal error for an unsupported code), `none` when the
extent carries no spatial reference and the builder rectangle is left
untouched. -/
noncomputable def extentRectangle (extent : FullExtent) :
    Except MetadataError (Option Rectangle) :=
  match extent.spatialReference with
  | none => .ok none
  | some sr =>
    match sr.wkid with
    | none => .ok none
    | some w =>
      if w = 102100 ∨ w = 102113 then
        .ok (some (webMercatorExtentRectangle extent))
      else if w = 4326 then
        .ok (some (Rectangle.fromDegrees extent.xmin extent.ymin
          extent.xmax extent.ymax))
      else .error (.unsupportedExtentSpatialReference w)

/-- Final step of `metadataSuccess`: a non-empty copyright text becomes the
builder's credit. -/
def applyCopyright (data : CapabilityDocument)
    (b : ImageryProviderBuilder) : ImageryProviderBuilder :=
  match data.copyrightText with
  | some text => if 0 < text.length then { b with credit := some text } else b
  | none => b

/-- `metadataSuccess`: a document without a tile-grid section turns tiles
off; otherwise the tile grid fixes tile size, tiling scheme and maximum
level, the optional data extent fixes the rectangle (full scheme rectangle
when the extent is absent), tiles are turned on, and a copyright text
becomes the credit. -/
noncomputable def metadataSuccess (data : CapabilityDocument)
    (b : ImageryProviderBuilder) : Except MetadataError ImageryProviderBuilder :=
  match data.tileInfo with
  | none => .ok (applyCopyright data { b with useTiles := false })
  | some tileInfo =>
    let b := { b with tileWidth := tileInfo.rows, tileHeight := tileInfo.cols }
    match tilingSchemeForWkid tileInfo.spatialReferenceWkid with
    | .error e => .error e
    | .ok scheme =>
      let b := { b with tilingScheme := scheme,
                        maximumLevel := some (tileInfo.lods.length - 1) }
      match data.fullExtent with
      | some extent =>
        match extentRectangle extent with
        | .error e => .error e
        | .ok none => .ok (applyCopyright data { b with useTiles := true })
        | .ok (some rectangle) =>
            .ok (applyCopyright data
              { b with rectangle := rectangle, useTiles := true })
      | none =>
        .ok (applyCopyright data
          { b with rectangle := scheme.rectangle, useTiles := true })

/-- The reprojected point an identify query carries
(from `pickFeatures`). -/
noncomputable def pickPoint (scheme : TilingScheme)
    (longitude latitude : ℝ) : ℝ × ℝ :=
  match scheme.projection with
  | .geographic => (toDegrees longitude, toDegrees latitude)
  | .webMercator => webMercatorProject longitude latitude

/-- The spatial-reference code an identify query carries. -/
def pickSpatialReference (scheme : TilingScheme) : String :=
  match scheme.projection with
  | .geographic => "4326"
  | .webMercator => "3857"

/-- The layer filter an identify query carries: `visible`, extended with
`:` and the configured filter when one is defined. -/
def pickLayers (layers : Option String) : String :=
  match layers with
  | some l => "visible:" ++ l
  | none => "visible"

/-- The query parameters of an `identify` request. -/
structure IdentifyQuery where
  f : String
  tolerance : Nat
  geometryType : String
  geometry : ℝ × ℝ
  mapExtent : Rectangle
  imageDisplay : Nat × Nat × Nat
  sr : String
  layers : String

/-- `pickFeatures`: returns the disabled sentinel immediately when the
pick-enable flag is false, and otherwise the single identify query the
call issues (the response mapping is applied to that query's result). -/
noncomputable def pickFeatures (p : Provider) (x y level : Nat)
    (longitude latitude : ℝ) : Option IdentifyQuery :=
  if !p.enablePickFeatures then
    none
  else
    some { f := "json", tolerance := 2, geometryType := "esriGeometryPoint",
           geometry := pickPoint p.tilingScheme longitude latitude,
           mapExtent := p.tilingScheme.tileXYToNativeRectangle x y level,
           imageDisplay := (p.tileWidth, p.tileHeight, 96),
           sr := pickSpatialReference p.tilingScheme,
           layers := pickLayers p.layers }

/-- Number of identify transport invocations a `pickFeatures` call makes:
one per issued query, zero for the disabled sentinel. -/
noncomputable def pickFeaturesTransportInvocations (p : Provider)
    (x y level : Nat) (longitude latitude : ℝ) : Nat :=
  match pickFeatures p x y level longitude latitude with
  | none => 0
  | some _ => 1

/-- `ArcGisMapServerImageryProvider.prototype.getTileCredits`: returns
`undefined` unconditionally. -/
def getTileCredits (p : Provider) (x y level : Nat) : Option (List String) :=
  none

/-- `requestMetadata` (ArcGIS variant): derives the JSON resource from the
endpoint and always fetches it; unlike the Bing variant there is no
process-wide cache, so every call appends one network fetch to the log. -/
def requestMetadata (fetches : List String) (url : String) : List String :=
  fetches ++ [url ++ "?f=json"]

@[simp] theorem applyCopyright_useTiles (d : CapabilityDocument)
    (b : ImageryProviderBuilder) : (applyCopyright d b).useTiles = b.useTiles := by
  unfold applyCopyright
  cases d.copyrightText with
  | none => rfl
  | some t => by_cases h : 0 < t.length <;> simp [h]

@[simp] theorem applyCopyright_tilingScheme (d : CapabilityDocument)
    (b : ImageryProviderBuilder) :
    (applyCopyright d b).tilingScheme = b.tilingScheme := by
  unfold applyCopyright
  cases d.copyrightText with
  | none => rfl
  | some t => by_cases h : 0 < t.length <;> simp [h]

@[simp] theorem applyCopyright_rectangle (d : CapabilityDocument)
    (b : ImageryProviderBuilder) : (applyCopyright d b).rectangle = b.rectangle := by
  unfold applyCopyright
  cases d.copyrightText with
  | none => rfl
  | some t => by_cases h : 0 < t.length <;> simp [h]

@[simp] theorem applyCopyright_tileWidth (d : CapabilityDocument)
    (b : ImageryProviderBuilder) : (applyCopyright d b).tileWidth = b.tileWidth := by
  unfold applyCopyright
  cases d.copyrightText with
  | none => rfl
  | some t => by_cases h : 0 < t.length <;> simp [h]

@[simp] theorem applyCopyright_tileHeight (d : CapabilityDocument)
    (b : ImageryProviderBuilder) : (applyCopyright d b).tileHeight = b.tileHeight := by
  unfold applyCopyright
  cases d.copyrightText with
  | none => rfl
  | some t => by_cases h : 0 < t.length <;> simp [h]

@[simp] theorem applyCopyright_maximumLevel (d : CapabilityDocument)
    (b : ImageryProviderBuilder) :
    (applyCopyright d b).maximumLevel = b.maximumLevel := by
  unfold applyCopyright
  cases d.copyrightText with
  | none => rfl
  | some t => by_cases h : 0 < t.length <;> simp [h]

/-- Inversion of a successful parse of a document with a tile-grid section:
the tile spatial reference was supported, the builder carries the derived
tile size, scheme and maximum level, and the rectangle is the scheme
rectangle (no extent), the input rectangle (extent without spatial
reference) or the extent-derived rectangle. -/
theorem metadataSuccess_tileInfo_ok (data : CapabilityDocument)
    (b b2 : ImageryProviderBuilder) (tileInfo : TileInfo)
    (ht : data.tileInfo = some tileInfo)
    (hok : metadataSuccess data b = .ok b2) :
    ∃ scheme, tilingSchemeForWkid tileInfo.spatialReferenceWkid = .ok scheme ∧
      b2.useTiles = true ∧ b2.tilingScheme = scheme ∧
      b2.tileWidth = tileInfo.rows ∧ b2.tileHeight = tileInfo.cols ∧
      b2.maximumLevel = some (tileInfo.lods.length - 1) ∧
      ((data.fullExtent = none ∧ b2.rectangle = TilingScheme.rectangle scheme) ∨
       (∃ extent, data.fullExtent = some extent ∧
         ((extentRectangle extent = .ok none ∧ b2.rectangle = b.rectangle) ∨
          (∃ r, extentRectangle extent = .ok (some r) ∧ b2.rectangle = r)))) := by
  unfold metadataSuccess at hok
  rw [ht] at hok
  simp only [] at hok
  rcases hscheme : tilingSchemeForWkid tileInfo.spatialReferenceWkid with e | scheme
  · simp [hscheme] at hok
  · simp only [hscheme] at hok
    refine ⟨scheme, rfl, ?_⟩
    rcases hfe : data.fullExtent with _ | extent
    · simp only [hfe, Except.ok.injEq] at hok
      subst hok
      exact ⟨by simp, by simp, by simp, by simp, by simp, Or.inl ⟨rfl, by simp⟩⟩
    · rcases her : extentRectangle extent with e2 | o
      · simp [hfe, her] at hok
      · rcases o with _ | r
        · simp only [hfe, her, Except.ok.injEq] at hok
          subst hok
          exact ⟨by simp, by simp, by simp, by simp, by simp,
            Or.inr ⟨extent, rfl, Or.inl ⟨her, by simp⟩⟩⟩
        · simp only [hfe, her, Except.ok.injEq] at hok
          subst hok
          exact ⟨by simp, by simp, by simp, by simp, by simp,
            Or.inr ⟨extent, rfl, Or.inr ⟨r, her, by simp⟩⟩⟩

theorem metadataSuccess_scheme (data : CapabilityDocument)
    (b b2 : ImageryProviderBuilder) (tileInfo : TileInfo) (scheme : TilingScheme)
    (ht : data.tileInfo = some tileInfo)
    (hs : tilingSchemeForWkid tileInfo.spatialReferenceWkid = .ok scheme)
    (hok : metadataSuccess data b = .ok b2) :
    b2.tilingScheme = scheme := by
  obtain ⟨scheme2, hs2, -, hsch, -, -, -, -⟩ :=
    metadataSuccess_tileInfo_ok data b b2 tileInfo ht hok
  rw [hs] at hs2
  injection hs2 with h
  rw [hsch]
  exact h.symm

theorem metadataSuccess_extent_update (data : CapabilityDocument)
    (b b2 : ImageryProviderBuilder) (tileInfo : TileInfo) (extent : FullExtent)
    (r : Rectangle) (ht : data.tileInfo = some tileInfo)
    (hfe : data.fullExtent = some extent)
    (her : extentRectangle extent = .ok (some r))
    (hok : metadataSuccess data b = .ok b2) :
    b2.rectangle = r := by
  obtain ⟨scheme, -, -, -, -, -, -, hrect⟩ :=
    metadataSuccess_tileInfo_ok data b b2 tileInfo ht hok
  rcases hrect with ⟨hnone, -⟩ | ⟨extent2, hfe2, hcase⟩
  · rw [hfe] at hnone
    exact Option.noConfusion hnone
  · rw [hfe] at hfe2
    injection hfe2 with hfe2
    subst hfe2
    rcases hcase with ⟨hn, -⟩ | ⟨r2, hr2, hb2⟩
    · rw [her] at hn
      simp at hn
    · rw [her] at hr2
      injection hr2 with hr2
      injection hr2 with hr2
      rw [hb2]
      exact hr2.symm

theorem metadataSuccess_extent_keep (data : CapabilityDocument)
    (b b2 : ImageryProviderBuilder) (tileInfo : TileInfo) (extent : FullExtent)
    (ht : data.tileInfo = some tileInfo)
    (hfe : data.fullExtent = some extent)
    (her : extentRectangle extent = .ok none)
    (hok : metadataSuccess data b = .ok b2) :
    b2.rectangle = b.rectangle := by
  obtain ⟨scheme, -, -, -, -, -, -, hrect⟩ :=
    metadataSuccess_tileInfo_ok data b b2 tileInfo ht hok
  rcases hrect with ⟨hnone, -⟩ | ⟨extent2, hfe2, hcase⟩
  · rw [hfe] at hnone
    exact Option.noConfusion hnone
  · rw [hfe] at hfe2
    injection hfe2 with hfe2
    subst hfe2
    rcases hcase with ⟨-, hb2⟩ | ⟨r2, hr2, -⟩
    · exact hb2
    · rw [her] at hr2
      simp at hr2

theorem metadataSuccess_no_extent (data : CapabilityDocument)
    (b b2 : ImageryProviderBuilder) (tileInfo : TileInfo)
    (ht : data.tileInfo = some tileInfo)
    (hfe : data.fullExtent = none)
    (hok : metadataSuccess data b = .ok b2) :
    b2.rectangle = TilingScheme.rectangle b2.tilingScheme := by
  obtain ⟨scheme, -, -, hsch, -, -, -, hrect⟩ :=
    metadataSuccess_tileInfo_ok data b b2 tileInfo ht hok
  rcases hrect with ⟨-, hb2⟩ | ⟨extent2, hfe2, -⟩
  · rw [hb2, hsch]
  · rw [hfe] at hfe2
    exact Option.noConfusion hfe2

/-- Claim C2: the tile-grid spatial reference selects the web-mercator
tiling scheme for 102100/102113 and the geographic scheme for 4326, and
any other code is a fatal unsupported-spatial-reference error; and,
independently, a data extent carrying a defined spatial-reference code is
reprojected with the web-mercator projection for 102100/102113,
interpreted as degrees for 4326, and any other defined code is a fatal
unsupported-spatial-reference error. -/
theorem metadata_spatial_reference_selection (data : CapabilityDocument)
    (b : ImageryProviderBuilder) (tileInfo : TileInfo)
    (ht : data.tileInfo = some tileInfo) :
    ((tileInfo.spatialReferenceWkid ≠ 102100 ∧ tileInfo.spatialReferenceWkid ≠ 102113 ∧
        tileInfo.spatialReferenceWkid ≠ 4326) →
      metadataSuccess data b =
        .error (.unsupportedTileSpatialReference tileInfo.spatialReferenceWkid)) ∧
    (∀ b2, metadataSuccess data b = .ok b2 →
      (((tileInfo.spatialReferenceWkid = 102100 ∨ tileInfo.spatialReferenceWkid = 102113) →
          b2.tilingScheme = .webMercator) ∧
        (tileInfo.spatialReferenceWkid = 4326 → b2.tilingScheme = .geographic))) ∧
    (∀ extent sr w, data.fullExtent = some extent →
      extent.spatialReference = some sr → sr.wkid = some w →
      (tileInfo.spatialReferenceWkid = 102100 ∨ tileInfo.spatialReferenceWkid = 102113 ∨
        tileInfo.spatialReferenceWkid = 4326) →
      w ≠ 102100 → w ≠ 102113 → w ≠ 4326 →
      metadataSuccess data b = .error (.unsupportedExtentSpatialReference w)) ∧
    (∀ extent sr w b2, data.fullExtent = some extent →
      extent.spatialReference = some sr → sr.wkid = some w →
      metadataSuccess data b = .ok b2 →
      (((w = 102100 ∨ w = 102113) →
          b2.rectangle = webMercatorExtentRectangle extent) ∧
        (w = 4326 → b2.rectangle = Rectangle.fromDegrees extent.xmin extent.ymin
          extent.xmax extent.ymax))) := by
  refine ⟨?_, ?_, ?_, ?_⟩
  · rintro ⟨h1, h2, h3⟩
    have hs : tilingSchemeForWkid tileInfo.spatialReferenceWkid =
        .error (.unsupportedTileSpatialReference tileInfo.spatialReferenceWkid) := by
      simp [tilingSchemeForWkid, h1, h2, h3]
    unfold metadataSuccess
    rw [ht]
    simp only [hs]
  · intro b2 hok
    constructor
    · intro h1
      have hs : tilingSchemeForWkid tileInfo.spatialReferenceWkid = .ok .webMercator := by
        rcases h1 with h | h <;> simp [tilingSchemeForWkid, h]
      exact metadataSuccess_scheme data b b2 tileInfo .webMercator ht hs hok
    · intro h1
      have hs : tilingSchemeForWkid tileInfo.spatialReferenceWkid = .ok .geographic := by
        simp [tilingSchemeForWkid, h1]
      exact metadataSuccess_scheme data b b2 tileInfo .geographic ht hs hok
  · intro extent sr w hfe hsr hw hsupp hn1 hn2 hn3
    obtain ⟨scheme, hs⟩ : ∃ scheme,
        tilingSchemeForWkid tileInfo.spatialReferenceWkid = .ok scheme := by
      rcases hsupp with h | h | h
      · exact ⟨.webMercator, by simp [tilingSchemeForWkid, h]⟩
      · exact ⟨.webMercator, by simp [tilingSchemeForWkid, h]⟩
      · exact ⟨.geographic, by simp [tilingSchemeForWkid, h]⟩
    have her : extentRectangle extent = .error (.unsupportedExtentSpatialReference w) := by
      unfold extentRectangle
      simp only [hsr, hw]
      simp [hn1, hn2, hn3]
    unfold metadataSuccess
    rw [ht]
    simp only [hs, hfe, her]
  · intro extent sr w b2 hfe hsr hw hok
    constructor
    · intro h1
      have her : extentRectangle extent = .ok (some (webMercatorExtentRectangle extent)) := by
        unfold extentRectangle
        simp only [hsr, hw]
        rcases h1 with h | h <;> simp [h]
      exact metadataSuccess_extent_update data b b2 tileInfo extent _ ht hfe her hok
    · intro h1
      have her : extentRectangle extent = .ok (some (Rectangle.fromDegrees extent.xmin
          extent.ymin extent.xmax extent.ymax)) := by
        unfold extentRectangle
        simp only [hsr, hw]
        simp [h1]
      exact metadataSuccess_extent_update data b b2 tileInfo extent _ ht hfe her hok

theorem build_useTiles (b : ImageryProviderBuilder) (p : Provider) :
    (b.build p).useTiles = b.useTiles := by
  unfold ImageryProviderBuilder.build
  by_cases h : (b.useTiles && b.tileDiscardPolicy.isNone) = true
  · simp [h]
  · simp [h]

/-- Claim C4: `build` installs the default missing-tile discard policy iff
the addressing mode is pre-cached and the caller supplied no discard
policy; the installed policy probes tile (0, 0) at the maximum level, at
exactly the pixel offsets (0,0), (200,20), (20,200), (80,110), (160,130)
in that order, and disables discarding entirely when all sampled pixels
are transparent. -/
theorem build_default_discard_policy (b : ImageryProviderBuilder) (p : Provider)
    (maxLevel : Nat) (hmax : b.maximumLevel = some maxLevel) :
    (b.useTiles = true → b.tileDiscardPolicy = none →
      (b.build p).tileDiscardPolicy = some (.discardMissingTileImage
        (.tile maxLevel 0 0)
        [(0, 0), (200, 20), (20, 200), (80, 110), (160, 130)] true)) ∧
    (¬ (b.useTiles = true ∧ b.tileDiscardPolicy = none) →
      (b.build p).tileDiscardPolicy = b.tileDiscardPolicy) := by
  constructor
  · intro hu hp
    unfold ImageryProviderBuilder.build
    simp [hu, hp, hmax, buildImageResource]
  · intro hn
    have hcond : (b.useTiles && b.tileDiscardPolicy.isNone) = false := by
      cases hu : b.useTiles <;> rcases hp : b.tileDiscardPolicy with _ | t <;> simp_all
    unfold ImageryProviderBuilder.build
    simp [hcond]

/-- The builder state produced by `new ImageryProviderBuilder(options)` with
every option left at its default: pre-cached tiles preferred, geographic
tiling scheme with its full rectangle, 256 x 256 tiles, no credit, no
discard policy, no maximum level. -/
noncomputable def defaultBuilder : ImageryProviderBuilder :=
  { useTiles := true, tilingScheme := .geographic,
    rectangle := TilingScheme.rectangle .geographic, credit := none,
    tileDiscardPolicy := none, tileWidth := 256, tileHeight := 256,
    maximumLevel := none }

/-- A builder that finished metadata resolution at maximum level 7, used to
witness claim C4. -/
noncomputable def discardWitnessBuilder : ImageryProviderBuilder :=
  { defaultBuilder with maximumLevel := some 7 }

/-- An arbitrary provider target for `build`, used to witness claim C4. -/
noncomputable def discardWitnessProvider : Provider :=
  { useTiles := true, tilingScheme := .geographic,
    rectangle := TilingScheme.rectangle .geographic, credit := none,
    tileDiscardPolicy := none, tileWidth := 256, tileHeight := 256,
    maximumLevel := none, layers := none, enablePickFeatures := true }

/-- Witness for claim C4 at a concrete builder with maximum level 7. -/
theorem build_default_discard_policy_witness :
    discardWitnessBuilder.maximumLevel = some 7 ∧
    ((discardWitnessBuilder.useTiles = true →
        discardWitnessBuilder.tileDiscardPolicy = none →
        (discardWitnessBuilder.build discardWitnessProvider).tileDiscardPolicy =
          some (.discardMissingTileImage (.tile 7 0 0)
            [(0, 0), (200, 20), (20, 200), (80, 110), (160, 130)] true)) ∧
      (¬ (discardWitnessBuilder.useTiles = true ∧
          discardWitnessBuilder.tileDiscardPolicy = none) →
        (discardWitnessBuilder.build discardWitnessProvider).tileDiscardPolicy =
          discardWitnessBuilder.tileDiscardPolicy)) :=
  ⟨rfl, build_default_discard_policy discardWitnessBuilder discardWitnessProvider 7 rfl⟩

/-- Claim C5: a capability document without a tile-grid section commits the
provider to dynamic (export) addressing; for a dynamically addressed
provider with the geographic tiling scheme and 256 x 256 tiles, the
request for tile (2, 3, 5) is an export query whose bounding box is the
tile's native rectangle and whose size parameter is "256,256", with
transparency enabled and spatial-reference parameters 4326 (3857 for the
web-mercator scheme), plus a `show:` layer parameter exactly when a
non-empty layer filter is configured. -/
theorem dynamic_export_request (data : CapabilityDocument)
    (b b2 : ImageryProviderBuilder) (p : Provider)
    (hd : data.tileInfo = none) (hok : metadataSuccess data b = .ok b2) :
    b2.useTiles = false ∧
    (b2.build p).useTiles = false ∧
    (p.useTiles = false → p.tilingScheme = .geographic → p.tileWidth = 256 →
      p.tileHeight = 256 →
      buildImageResource p 2 3 5 = .dynamicExport
        { bbox := TilingScheme.tileXYToNativeRectangle .geographic 2 3 5,
          size := "256,256", format := "png32", transparent := true,
          f := "image", bboxSR := 4326, imageSR := 4326,
          layers := layersShowParameter p.layers }) ∧
    (p.useTiles = false → p.tilingScheme = .webMercator →
      ∀ x y level, buildImageResource p x y level = .dynamicExport
        { bbox := TilingScheme.tileXYToNativeRectangle .webMercator x y level,
          size := toString p.tileWidth ++ "," ++ toString p.tileHeight,
          format := "png32", transparent := true, f := "image",
          bboxSR := 3857, imageSR := 3857,
          layers := layersShowParameter p.layers }) ∧
    (p.layers = none → layersShowParameter p.layers = none) ∧
    (∀ s, p.layers = some s → s ≠ "" →
      layersShowParameter p.layers = some ("show:" ++ s)) := by
  have hb2 : b2.useTiles = false := by
    unfold metadataSuccess at hok
    rw [hd] at hok
    simp only [Except.ok.injEq] at hok
    subst hok
    simp
  refine ⟨hb2, by rw [build_useTiles]; exact hb2, ?_, ?_, ?_, ?_⟩
  · intro h1 h2 h3 h4
    unfold buildImageResource
    simp [h1, h2, h3, h4, TilingScheme.projection]
    rfl
  · intro h1 h2 x y level
    unfold buildImageResource
    simp [h1, h2, TilingScheme.projection]
  · intro h
    simp [layersShowParameter, h]
  · intro s h hne
    simp [layersShowParameter, h, hne]

/-- A capability document with no tile-grid section, used to witness
claim C5. -/
noncomputable def dynamicDocument : CapabilityDocument :=
  { tileInfo := none, fullExtent := none, copyrightText := none }

/-- The builder state after parsing `dynamicDocument`: tiles turned off. -/
noncomputable def dynamicBuilder : ImageryProviderBuilder :=
  { defaultBuilder with useTiles := false }

/-- A committed dynamically addressed provider with the geographic scheme
and 256 x 256 tiles, used to witness claim C5. -/
noncomputable def exportProvider : Provider :=
  { useTiles := false, tilingScheme := .geographic,
    rectangle := TilingScheme.rectangle .geographic, credit := none,
    tileDiscardPolicy := none, tileWidth := 256, tileHeight := 256,
    maximumLevel := none, layers := none, enablePickFeatures := true }

/-- Witness for claim C5 at a concrete document and provider. -/
theorem dynamic_export_request_witness :
    dynamicDocument.tileInfo = none ∧
    metadataSuccess dynamicDocument defaultBuilder = .ok dynamicBuilder ∧
    (dynamicBuilder.useTiles = false ∧
     (dynamicBuilder.build exportProvider).useTiles = false ∧
     (exportProvider.useTiles = false → exportProvider.tilingScheme = .geographic →
       exportProvider.tileWidth = 256 → exportProvider.tileHeight = 256 →
       buildImageResource exportProvider 2 3 5 = .dynamicExport
         { bbox := TilingScheme.tileXYToNativeRectangle .geographic 2 3 5,
           size := "256,256", format := "png32", transparent := true,
           f := "image", bboxSR := 4326, imageSR := 4326,
           layers := layersShowParameter exportProvider.layers }) ∧
     (exportProvider.useTiles = false → exportProvider.tilingScheme = .webMercator →
       ∀ x y level, buildImageResource exportProvider x y level = .dynamicExport
         { bbox := TilingScheme.tileXYToNativeRectangle .webMercator x y level,
           size := toString exportProvider.tileWidth ++ "," ++
             toString exportProvider.tileHeight,
           format := "png32", transparent := true, f := "image",
           bboxSR := 3857, imageSR := 3857,
           layers := layersShowParameter exportProvider.layers }) ∧
     (exportProvider.layers = none → layersShowParameter exportProvider.layers = none) ∧
     (∀ s, exportProvider.layers = some s → s ≠ "" →
       layersShowParameter exportProvider.layers = some ("show:" ++ s))) :=
  ⟨rfl, rfl, dynamic_export_request dynamicDocument defaultBuilder dynamicBuilder
    exportProvider rfl rfl⟩

/-- Claim C6: when the pick-enable flag is false `pickFeatures` returns the
disabled sentinel immediately with zero transport invocations; when it is
true it issues exactly one identify query carrying the reprojected point,
the tile's native rectangle, the display size, the spatial-reference code
and the `visible` / `visible:` layer filter. -/
theorem pickFeatures_contract (p : Provider) (x y level : Nat)
    (longitude latitude : ℝ) :
    (p.enablePickFeatures = false →
      pickFeatures p x y level longitude latitude = none ∧
      pickFeaturesTransportInvocations p x y level longitude latitude = 0) ∧
    (p.enablePickFeatures = true →
      pickFeaturesTransportInvocations p x y level longitude latitude = 1 ∧
      pickFeatures p x y level longitude latitude = some
        { f := "json", tolerance := 2, geometryType := "esriGeometryPoint",
          geometry := pickPoint p.tilingScheme longitude latitude,
          mapExtent := p.tilingScheme.tileXYToNativeRectangle x y level,
          imageDisplay := (p.tileWidth, p.tileHeight, 96),
          sr := pickSpatialReference p.tilingScheme,
          layers := pickLayers p.layers }) ∧
    (p.tilingScheme = .geographic →
      pickPoint p.tilingScheme longitude latitude =
        (toDegrees longitude, toDegrees latitude) ∧
      pickSpatialReference p.tilingScheme = "4326") ∧
    (p.tilingScheme = .webMercator →
      pickPoint p.tilingScheme longitude latitude =
        webMercatorProject longitude latitude ∧
      pickSpatialReference p.tilingScheme = "3857") ∧
    (p.layers = none → pickLayers p.layers = "visible") ∧
    (∀ s, p.layers = some s → pickLayers p.layers = "visible:" ++ s) := by
  refine ⟨?_, ?_, ?_, ?_, ?_, ?_⟩
  · intro h
    constructor <;> simp [pickFeatures, pickFeaturesTransportInvocations, h]
  · intro h
    constructor <;> simp [pickFeatures, pickFeaturesTransportInvocations, h]
  · intro h
    constructor <;> simp [pickPoint, pickSpatialReference, TilingScheme.projection, h]
  · intro h
    constructor <;> simp [pickPoint, pickSpatialReference, TilingScheme.projection, h]
  · intro h
    simp [pickLayers, h]
  · intro s h
    simp [pickLayers, h]

/-- A committed provider with picking enabled and a layer filter, used to
witness claim C6. -/
noncomputable def enabledPickProvider : Provider :=
  { useTiles := true, tilingScheme := .geographic,
    rectangle := TilingScheme.rectangle .geographic, credit := none,
    tileDiscardPolicy := none, tileWidth := 256, tileHeight := 256,
    maximumLevel := some 2, layers := some "0,1", enablePickFeatures := true }

/-- The same provider with the pick-enable flag cleared. -/
noncomputable def disabledPickProvider : Provider :=
  { enabledPickProvider with enablePickFeatures := false }

/-- Witness for claim C6 at concrete providers with the flag cleared and
set. -/
theorem pickFeatures_contract_witness :
    (pickFeatures disabledPickProvider 1 2 3 0 0 = none ∧
     pickFeaturesTransportInvocations disabledPickProvider 1 2 3 0 0 = 0) ∧
    (pickFeaturesTransportInvocations enabledPickProvider 1 2 3 0 0 = 1 ∧
     pickFeatures enabledPickProvider 1 2 3 0 0 = some
       { f := "json", tolerance := 2, geometryType := "esriGeometryPoint",
         geometry := pickPoint enabledPickProvider.tilingScheme 0 0,
         mapExtent := enabledPickProvider.tilingScheme.tileXYToNativeRectangle 1 2 3,
         imageDisplay := (enabledPickProvider.tileWidth,
           enabledPickProvider.tileHeight, 96),
         sr := pickSpatialReference enabledPickProvider.tilingScheme,
         layers := pickLayers enabledPickProvider.layers }) :=
  ⟨(pickFeatures_contract disabledPickProvider 1 2 3 0 0).1 rfl,
   (pickFeatures_contract enabledPickProvider 1 2 3 0 0).2.1 rfl⟩

/-- Claim C10: the ArcGIS provider's `getTileCredits` returns the
undefined sentinel for every tile coordinate, regardless of the provider's
committed configuration, credit or attribution state. -/
theorem getTileCredits_always_undefined (p : Provider) (x y level : Nat) :
    getTileCredits p x y level = none := rfl

/-- Claim C7 (amended): for a successfully parsed document with a tile-grid
section, a data extent carrying a defined spatial reference sets the
provider rectangle to that extent (clamped and unprojected for
web-mercator codes, converted from degrees for 4326); with no data extent
the rectangle is the resolved tiling scheme's full rectangle; but a data
extent without a defined spatial reference leaves the builder's
caller-supplied rectangle unchanged rather than defaulting it to the
resolved scheme's full rectangle. -/
theorem metadata_rectangle_selection (data : CapabilityDocument)
    (b b2 : ImageryProviderBuilder) (tileInfo : TileInfo)
    (ht : data.tileInfo = some tileInfo)
    (hok : metadataSuccess data b = .ok b2) :
    (data.fullExtent = none →
      b2.rectangle = TilingScheme.rectangle b2.tilingScheme) ∧
    (∀ extent sr w, data.fullExtent = some extent →
      extent.spatialReference = some sr → sr.wkid = some w →
      (((w = 102100 ∨ w = 102113) →
          b2.rectangle = webMercatorExtentRectangle extent) ∧
        (w = 4326 → b2.rectangle = Rectangle.fromDegrees extent.xmin extent.ymin
          extent.xmax extent.ymax))) ∧
    (∀ extent, data.fullExtent = some extent → extent.spatialReference = none →
      b2.rectangle = b.rectangle) ∧
    (∀ extent sr, data.fullExtent = some extent →
      extent.spatialReference = some sr → sr.wkid = none →
      b2.rectangle = b.rectangle) := by
  refine ⟨?_, ?_, ?_, ?_⟩
  · intro hfe
    exact metadataSuccess_no_extent data b b2 tileInfo ht hfe hok
  · intro extent sr w hfe hsr hw
    constructor
    · intro h1
      have her : extentRectangle extent =
          .ok (some (webMercatorExtentRectangle extent)) := by
        unfold extentRectangle
        simp only [hsr, hw]
        rcases h1 with h | h <;> simp [h]
      exact metadataSuccess_extent_update data b b2 tileInfo extent _ ht hfe her hok
    · intro h1
      have her : extentRectangle extent = .ok (some (Rectangle.fromDegrees
          extent.xmin extent.ymin extent.xmax extent.ymax)) := by
        unfold extentRectangle
        simp only [hsr, hw]
        simp [h1]
      exact metadataSuccess_extent_update data b b2 tileInfo extent _ ht hfe her hok
  · intro extent hfe hsr
    have her : extentRectangle extent = .ok none := by
      unfold extentRectangle
      simp only [hsr]
    exact metadataSuccess_extent_keep data b b2 tileInfo extent ht hfe her hok
  · intro extent sr hfe hsr hw
    have her : extentRectangle extent = .ok none := by
      unfold extentRectangle
      simp only [hsr, hw]
    exact metadataSuccess_extent_keep data b b2 tileInfo extent ht hfe her hok

/-- The tile grid of the counterexample document for claim C7: web-mercator
code 102100, one level of detail. -/
noncomputable def extentNoSRTileInfo : TileInfo :=
  { rows := 256, cols := 256, spatialReferenceWkid := 102100, lods := [⟨0⟩] }

/-- A capability document whose tile grid selects the web-mercator scheme
and whose data extent carries no spatial reference. -/
noncomputable def extentNoSRDocument : CapabilityDocument :=
  { tileInfo := some extentNoSRTileInfo,
    fullExtent := some { xmin := 0, ymin := 0, xmax := 1, ymax := 1,
                         spatialReference := none },
    copyrightText := none }

/-- The builder `metadataSuccess` produces for `extentNoSRDocument` from the
default builder: the scheme is web-mercator but the rectangle is still the
caller-default geographic full rectangle. -/
noncomputable def extentNoSRResult : ImageryProviderBuilder :=
  { useTiles := true, tilingScheme := .webMercator,
    rectangle := TilingScheme.rectangle .geographic, credit := none,
    tileDiscardPolicy := none, tileWidth := 256, tileHeight := 256,
    maximumLevel := some 0 }

/-- Counterexample to claim C7: for a document whose tile grid resolves to
the web-mercator scheme and whose data extent carries no spatial
reference, the parser leaves the caller-default (geographic full)
rectangle in place, and that rectangle differs from the resolved tiling
scheme's full rectangle. -/
theorem metadata_rectangle_counterexample :
    metadataSuccess extentNoSRDocument defaultBuilder = .ok extentNoSRResult ∧
    extentNoSRResult.tilingScheme = TilingScheme.webMercator ∧
    extentNoSRResult.rectangle ≠
      TilingScheme.rectangle extentNoSRResult.tilingScheme := by
  refine ⟨rfl, rfl, ?_⟩
  intro h
  have hnorth := congrArg Rectangle.north h
  simp only [extentNoSRResult, TilingScheme.rectangle] at hnorth
  have harctan : Real.arctan (Real.exp (-Real.pi)) = 0 := by linarith
  exact Real.exp_ne_zero _ (Real.arctan_eq_zero_iff.mp harctan)

/-- The tile grid of the witness document for claim C7. -/
noncomputable def degreesExtentTileInfo : TileInfo :=
  { rows := 256, cols := 256, spatialReferenceWkid := 4326, lods := [⟨0⟩] }

/-- A data extent in degrees with spatial reference 4326. -/
noncomputable def degreesExtent : FullExtent :=
  { xmin := 10, ymin := 20, xmax := 30, ymax := 40,
    spatialReference := some ⟨some 4326⟩ }

/-- A capability document with geographic tile grid and a 4326 data
extent. -/
noncomputable def degreesExtentDocument : CapabilityDocument :=
  { tileInfo := some degreesExtentTileInfo, fullExtent := some degreesExtent,
    copyrightText := none }

/-- The builder `metadataSuccess` produces for `degreesExtentDocument`. -/
noncomputable def degreesExtentResult : ImageryProviderBuilder :=
  { useTiles := true, tilingScheme := .geographic,
    rectangle := Rectangle.fromDegrees 10 20 30 40, credit := none,
    tileDiscardPolicy := none, tileWidth := 256, tileHeight := 256,
    maximumLevel := some 0 }

/-- Witness for the amended claim C7 at a concrete document with a 4326
data extent. -/
theorem metadata_rectangle_selection_witness :
    degreesExtentDocument.tileInfo = some degreesExtentTileInfo ∧
    metadataSuccess degreesExtentDocument defaultBuilder = .ok degreesExtentResult ∧
    ((degreesExtentDocument.fullExtent = none →
      degreesExtentResult.rectangle =
        TilingScheme.rectangle degreesExtentResult.tilingScheme) ∧
    (∀ extent sr w, degreesExtentDocument.fullExtent = some extent →
      extent.spatialReference = some sr → sr.wkid = some w →
      (((w = 102100 ∨ w = 102113) →
          degreesExtentResult.rectangle = webMercatorExtentRectangle extent) ∧
        (w = 4326 → degreesExtentResult.rectangle = Rectangle.fromDegrees
          extent.xmin extent.ymin extent.xmax extent.ymax))) ∧
    (∀ extent, degreesExtentDocument.fullExtent = some extent →
      extent.spatialReference = none →
      degreesExtentResult.rectangle = defaultBuilder.rectangle) ∧
    (∀ extent sr, degreesExtentDocument.fullExtent = some extent →
      extent.spatialReference = some sr → sr.wkid = none →
      degreesExtentResult.rectangle = defaultBuilder.rectangle)) :=
  ⟨rfl, rfl, metadata_rectangle_selection degreesExtentDocument defaultBuilder
    degreesExtentResult degreesExtentTileInfo rfl rfl⟩

/-- Claim C9 (amended): for every capability document with a tile-grid
section that parses successfully, metadata resolution sets the addressing
mode to pre-cached, the maximum level to the number of level-of-detail
entries minus one, the tile width to the grid's `rows` field and the tile
height to the grid's `cols` field. -/
theorem metadata_tile_grid (data : CapabilityDocument)
    (b b2 : ImageryProviderBuilder) (tileInfo : TileInfo)
    (ht : data.tileInfo = some tileInfo) (hlods : tileInfo.lods ≠ [])
    (hok : metadataSuccess data b = .ok b2) :
    b2.useTiles = true ∧
    b2.maximumLevel = some (tileInfo.lods.length - 1) ∧
    b2.tileWidth = tileInfo.rows ∧
    b2.tileHeight = tileInfo.cols := by
  obtain ⟨scheme, -, h1, -, h3, h4, h5, -⟩ :=
    metadataSuccess_tileInfo_ok data b b2 tileInfo ht hok
  exact ⟨h1, h5, h3, h4⟩

/-- The tile grid of the counterexample document for claim C9: 128 pixel
rows and 256 pixel columns. -/
noncomputable def swappedTileSizeTileInfo : TileInfo :=
  { rows := 128, cols := 256, spatialReferenceWkid := 4326, lods := [⟨0⟩] }

/-- A capability document whose tile grid has different row and column
pixel dimensions. -/
noncomputable def swappedTileSizeDocument : CapabilityDocument :=
  { tileInfo := some swappedTileSizeTileInfo, fullExtent := none,
    copyrightText := none }

/-- The builder `metadataSuccess` produces for `swappedTileSizeDocument`. -/
noncomputable def swappedTileSizeResult : ImageryProviderBuilder :=
  { useTiles := true, tilingScheme := .geographic,
    rectangle := TilingScheme.rectangle .geographic, credit := none,
    tileDiscardPolicy := none, tileWidth := 128, tileHeight := 256,
    maximumLevel := some 0 }

/-- Counterexample to claim C9: for a tile grid reporting 128 pixel rows
and 256 pixel columns, the parser sets the builder's tile width to the row
dimension 128, not to the column dimension 256 as the claim states (and
the tile height to the column dimension 256, not the row dimension). -/
theorem metadata_tile_size_counterexample :
    metadataSuccess swappedTileSizeDocument defaultBuilder =
      .ok swappedTileSizeResult ∧
    swappedTileSizeResult.tileWidth = 128 ∧
    swappedTileSizeResult.tileHeight = 256 ∧
    swappedTileSizeTileInfo.cols = 256 ∧
    swappedTileSizeResult.tileWidth ≠ swappedTileSizeTileInfo.cols := by
  exact ⟨rfl, rfl, rfl, rfl, by decide⟩

/-- Witness for the amended claim C9 at the concrete 128 x 256 tile
grid. -/
theorem metadata_tile_grid_witness :
    swappedTileSizeDocument.tileInfo = some swappedTileSizeTileInfo ∧
    swappedTileSizeTileInfo.lods ≠ [] ∧
    (swappedTileSizeResult.useTiles = true ∧
     swappedTileSizeResult.maximumLevel =
       some (swappedTileSizeTileInfo.lods.length - 1) ∧
     swappedTileSizeResult.tileWidth = swappedTileSizeTileInfo.rows ∧
     swappedTileSizeResult.tileHeight = swappedTileSizeTileInfo.cols) :=
  ⟨rfl, by simp [swappedTileSizeTileInfo],
   metadata_tile_grid swappedTileSizeDocument defaultBuilder swappedTileSizeResult
     swappedTileSizeTileInfo rfl (by simp [swappedTileSizeTileInfo]) rfl⟩

/-- The tile grid of the witness document for claim C2: the unsupported
code 9999. -/
noncomputable def unsupportedTileInfo : TileInfo :=
  { rows := 256, cols := 256, spatialReferenceWkid := 9999, lods := [⟨0⟩] }

/-- A capability document whose tile grid reports the unsupported
spatial-reference code 9999. -/
noncomputable def unsupportedTileDocument : CapabilityDocument :=
  { tileInfo := some unsupportedTileInfo, fullExtent := none,
    copyrightText := none }

/-- Witness for claim C2 at a concrete document with an unsupported
tile-grid spatial reference. -/
theorem metadata_spatial_reference_selection_witness :
    unsupportedTileDocument.tileInfo = some unsupportedTileInfo ∧
    (((unsupportedTileInfo.spatialReferenceWkid ≠ 102100 ∧
        unsupportedTileInfo.spatialReferenceWkid ≠ 102113 ∧
        unsupportedTileInfo.spatialReferenceWkid ≠ 4326) →
      metadataSuccess unsupportedTileDocument defaultBuilder =
        .error (.unsupportedTileSpatialReference
          unsupportedTileInfo.spatialReferenceWkid)) ∧
    (∀ b2, metadataSuccess unsupportedTileDocument defaultBuilder = .ok b2 →
      (((unsupportedTileInfo.spatialReferenceWkid = 102100 ∨
          unsupportedTileInfo.spatialReferenceWkid = 102113) →
          b2.tilingScheme = .webMercator) ∧
        (unsupportedTileInfo.spatialReferenceWkid = 4326 →
          b2.tilingScheme = .geographic))) ∧
    (∀ extent sr w, unsupportedTileDocument.fullExtent = some extent →
      extent.spatialReference = some sr → sr.wkid = some w →
      (unsupportedTileInfo.spatialReferenceWkid = 102100 ∨
        unsupportedTileInfo.spatialReferenceWkid = 102113 ∨
        unsupportedTileInfo.spatialReferenceWkid = 4326) →
      w ≠ 102100 → w ≠ 102113 → w ≠ 4326 →
      metadataSuccess unsupportedTileDocument defaultBuilder =
        .error (.unsupportedExtentSpatialReference w)) ∧
    (∀ extent sr w b2, unsupportedTileDocument.fullExtent = some extent →
      extent.spatialReference = some sr → sr.wkid = some w →
      metadataSuccess unsupportedTileDocument defaultBuilder = .ok b2 →
      (((w = 102100 ∨ w = 102113) →
          b2.rectangle = webMercatorExtentRectangle extent) ∧
        (w = 4326 → b2.rectangle = Rectangle.fromDegrees extent.xmin extent.ymin
          extent.xmax extent.ymax)))) :=
  ⟨rfl, metadata_spatial_reference_selection unsupportedTileDocument defaultBuilder
    unsupportedTileInfo rfl⟩

end ArcGis

/-- Counterexample to claim C8: two ArcGIS provider constructions from the
same endpoint issue two metadata fetches — the ArcGIS `requestMetadata`
consults no process-wide cache — contradicting "at most one metadata
fetch" per endpoint-derived key. -/
theorem metadata_fetch_counterexample :
    (ArcGis.requestMetadata (ArcGis.requestMetadata []
        "https://example.com/MapServer/") "https://example.com/MapServer/").length = 2 ∧
    ¬ ((2 : Nat) ≤ 1) :=
  ⟨rfl, by decide⟩

/-- Claim C8 (amended): the Bing metadata resolver consults the
process-wide cache keyed by the metadata URL, so resolving the same key a
second time changes nothing (the cached promise is reused and at most one
fetch is issued per key), while the ArcGIS resolver has no cache and
issues exactly one metadata fetch per provider construction. -/
theorem metadata_fetch_per_key (st : Bing.MetadataFetchState) (url : String)
    (fetches : List String) :
    Bing.requestMetadata (Bing.requestMetadata st url) url =
      Bing.requestMetadata st url ∧
    (Bing.requestMetadata ⟨[], []⟩ url).fetches = [url] ∧
    (Bing.requestMetadata (Bing.requestMetadata ⟨[], []⟩ url) url).fetches = [url] ∧
    (ArcGis.requestMetadata fetches url).length = fetches.length + 1 := by
  refine ⟨Bing.requestMetadata_idem st url, ?_, ?_, ?_⟩
  · simp [Bing.requestMetadata]
  · rw [Bing.requestMetadata_idem]
    simp [Bing.requestMetadata]
  · simp [ArcGis.requestMetadata]
